import Mathlib

/-!
Verification development for the xedu-client process-supervision subsystem.

Shallow embedding of:
  * `src/src/backend/models/config.py`          (`JupyterConfig`, `validate`)
  * `src/src/backend/services/jupyter_service.py` (`JupyterManager`: the `JS` model)
  * `src/src-tauri/resources/web_app.py`        (`JupyterManager`: the `WA` model,
                                                  `save_config` route)
  * `src/backend_api.py`                        (`save_config` route: the `BA` model)

OS effects (filesystem queries, `os.kill(pid, 0)`, `Popen.poll`, TCP port
probes, process spawning, stderr reads, clocks) are modelled as explicit
oracle records passed to each operation; the Python control flow around
them is translated statement by statement.
-/

/-! ## String helpers (Python `str.lower()` and the `in` substring operator) -/

/-- `charsBeginWith needle hay` is true when `needle` is an initial segment of
`hay`, the building block of substring search. -/
def charsBeginWith : List Char → List Char → Bool
  | [], _ => true
  | _ :: _, [] => false
  | a :: as, b :: bs => a == b && charsBeginWith as bs

/-- `charsContain needle hay` models Python's `needle in hay` substring test. -/
def charsContain (needle : List Char) : List Char → Bool
  | [] => needle.isEmpty
  | b :: bs => charsBeginWith needle (b :: bs) || charsContain needle bs

/-- Python's `s.lower()` on the character level (the fatal-marker keywords are
ASCII, for which `Char.toLower` agrees with `str.lower`). -/
def lowerChars (s : String) : List Char := s.toList.map Char.toLower

/-- `strBeginWith pre s` : does `s` start with `pre`. -/
def strBeginWith (pre s : String) : Bool := charsBeginWith pre.toList s.toList

/-! ## Early-crash stderr keyword detection

`web_app.py` lines 234-246: after spawning, stderr is read for a grace
period and the launch is failed when the decoded output contains one of
five fatal markers (case-insensitive).

`jupyter_service.py` lines 326-349 (`_wait_for_startup`): the analogous
check uses only three markers. -/

/-- The fatal-indicator substrings of `web_app.py` line 239. -/
def waStderrKeywords : List String := ["error:", "exception", "traceback", "failed", "fatal"]

/-- The fatal-indicator substrings of `jupyter_service.py` line 337. -/
def jsStartupKeywords : List String := ["error:", "exception", "traceback"]

/-- `web_app.py` lines 234-243: `if error_output:` then
`any(keyword in error_output.lower() for keyword in [...])`. -/
def waStderrFatal (out : String) : Bool :=
  (out != "") && waStderrKeywords.any (fun k => charsContain k.toList (lowerChars out))

/-- `jupyter_service.py` line 337: `if stderr_output and any(keyword in
stderr_output.lower() for keyword in ['error:', 'exception', 'traceback'])`. -/
def jsStderrFatal (out : String) : Bool :=
  (out != "") && jsStartupKeywords.any (fun k => charsContain k.toList (lowerChars out))

/-! ## Filesystem and process oracles -/

/-- Filesystem queries (`Path.exists`, `Path.is_file`, `Path.is_dir`). -/
structure FS where
  pathLives : String → Bool
  isFile : String → Bool
  isDir : String → Bool

/-- One snapshot of the OS liveness signals used by `is_running`:
`os.kill(pid, 0)` success, `Popen.poll() is None`, and the TCP connect to
`127.0.0.1:<port>` (`_is_port_occupied`). -/
structure Probe where
  pidAlive : Nat → Bool
  pollRunning : Nat → Bool
  portOccupied : Int → Bool

/-! ## `JupyterConfig` (`src/src/backend/models/config.py`) -/

/-- The `JupyterConfig` dataclass, fields in declaration order. -/
structure JupyterConfig where
  port : Int
  python_executable : String
  project_dir : String
  use_notebook : Bool
  auto_start : Bool
  auto_restart : Bool
  check_interval : Int
  max_restarts : Int
  args : String
  envv : List (String × String)
  debug : Bool
deriving DecidableEq

/-- The dataclass defaults of `JupyterConfig`. -/
def defaultJupyterConfig : JupyterConfig :=
  { port := 8888, python_executable := "", project_dir := "", use_notebook := false,
    auto_start := false, auto_restart := true, check_interval := 2000, max_restarts := 3,
    args := "", envv := [], debug := false }

/-- `JupyterConfig.validate` (config.py lines 27-46): collects error strings,
valid iff none.  Path existence is read from the filesystem oracle. -/
def validateConfig (fs : FS) (c : JupyterConfig) : Bool × List String :=
  let errors :=
    (if c.port < 1024 || c.port > 65535 then ["端口号必须在 1024-65535 之间"] else [])
    ++ (if c.python_executable != "" && !(fs.pathLives c.python_executable) then
          ["Python 解释器不存在: " ++ c.python_executable] else [])
    ++ (if c.project_dir != "" && !(fs.pathLives c.project_dir) then
          ["项目目录不存在: " ++ c.project_dir] else [])
    ++ (if c.check_interval < 1000 then ["检查间隔不能小于 1000 毫秒"] else [])
    ++ (if c.max_restarts < 0 then ["最大重启次数不能为负数"] else [])
  (errors.isEmpty, errors)

/-! ## The backend-service manager (`jupyter_service.py`), model `JS` -/

/-- A well-typed override set for `start(**kwargs)`: at most one value per
`JupyterConfig` field (unrecognised keys never make it into the merge; the
dict-level behaviour of `_merge_config` itself is modelled separately for
C10). -/
structure Overrides where
  port : Option Int
  python_executable : Option String
  project_dir : Option String
  use_notebook : Option Bool
  auto_start : Option Bool
  auto_restart : Option Bool
  check_interval : Option Int
  max_restarts : Option Int
  args : Option String
  envv : Option (List (String × String))
  debug : Option Bool

/-- An empty override set (`start()` with no kwargs, as called by the
protection loop at jupyter_service.py line 466). -/
def noOverrides : Overrides :=
  { port := none, python_executable := none, project_dir := none, use_notebook := none,
    auto_start := none, auto_restart := none, check_interval := none, max_restarts := none,
    args := none, envv := none, debug := none }

/-- `_merge_config` at the typed level: the stored config updated at the
supplied (recognised) keys. -/
def applyOverrides (c : JupyterConfig) (o : Overrides) : JupyterConfig :=
  { port := o.port.getD c.port,
    python_executable := o.python_executable.getD c.python_executable,
    project_dir := o.project_dir.getD c.project_dir,
    use_notebook := o.use_notebook.getD c.use_notebook,
    auto_start := o.auto_start.getD c.auto_start,
    auto_restart := o.auto_restart.getD c.auto_restart,
    check_interval := o.check_interval.getD c.check_interval,
    max_restarts := o.max_restarts.getD c.max_restarts,
    args := o.args.getD c.args,
    envv := o.envv.getD c.envv,
    debug := o.debug.getD c.debug }

/-- The mutable state of `jupyter_service.JupyterManager` (lines 27-38).
`auto_restart`, `check_interval` and `max_restarts` are copied from the
config at `__init__` and never rewritten by `start` (which only reassigns
`self.config`). -/
structure JSState where
  config : JupyterConfig
  process : Option Nat
  managed_pid : Option Nat
  start_time : Option Nat
  auto_restart : Bool
  check_interval : Nat
  max_restarts : Int
  restart_count : Int
  protection_on : Bool
  stop_event : Bool
deriving DecidableEq

/-- The result dict of the manager operations, projected to the fields the
claims mention. -/
structure OpResult where
  success : Bool
  message : String
deriving DecidableEq

/-- `JupyterManager.is_running` (jupyter_service.py lines 157-176).  Note the
mutation: a failed `os.kill(pid, 0)` clears `managed_pid`, `process` and
`start_time`; the fallthrough cases leave the state untouched. -/
def isRunningJS (p : Probe) (st : JSState) : Bool × JSState :=
  match st.managed_pid with
  | some pid =>
    if p.pidAlive pid then (true, st)
    else (false, { st with managed_pid := none, process := none, start_time := none })
  | none =>
    match st.process with
    | some h =>
      if p.pollRunning h then (true, st)
      else (p.portOccupied st.config.port, st)
    | none => (p.portOccupied st.config.port, st)

/-- `JupyterManager._stop_process` (lines 351-400): returns `False` when no
handle is held; the PID-only path raises (and so returns `False`) when the
process is already gone. -/
def stopProcessJS (p : Probe) (st : JSState) : Bool × JSState :=
  match st.process, st.managed_pid with
  | none, none => (false, st)
  | some _, _ => (true, st)
  | none, some pid => if p.pidAlive pid then (true, st) else (false, st)

/-- `JupyterManager.stop` (lines 87-119): stop protection, stop the process,
then `_cleanup` (which zeroes `restart_count`); both branches report
`success: True`, with message `"Jupyter 未运行"` in the not-running case. -/
def stopJS (p : Probe) (st : JSState) : OpResult × JSState :=
  let st1 := { st with stop_event := true, protection_on := false }
  let r := stopProcessJS p st1
  let st3 := { r.2 with process := none, managed_pid := none,
                        start_time := none, restart_count := 0 }
  if r.1 then ({ success := true, message := "Jupyter 已停止" }, st3)
  else ({ success := true, message := "Jupyter 未运行" }, st3)

/-- Oracles consumed by one `start` call. `startupOk` abstracts the outcome
of the timed `_wait_for_startup` polling loop (real time and pipe reads);
its stderr keyword test is modelled separately as `jsStderrFatal`. -/
structure StartEnv where
  fs : FS
  p1 : Probe
  stopProbe : Probe
  pythonTestOk : Bool
  spawnPid : Option Nat
  spawnErr : String
  now : Nat
  startupOk : Bool

/-- `JupyterManager._validate_environment` (lines 190-227): interpreter must
exist and pass the subprocess test when set; project dir must exist and be a
directory when set. -/
def validateEnvironmentJS (e : StartEnv) (c : JupyterConfig) : Bool :=
  (c.python_executable == "" || (e.fs.pathLives c.python_executable && e.pythonTestOk)) &&
  (c.project_dir == "" || (e.fs.pathLives c.project_dir && e.fs.isDir c.project_dir))

/-- `JupyterManager._build_command` (lines 286-311). `sys.executable` of the
supervisor is a fixed string; `args.split()` is modelled as splitting on
single spaces and dropping empty tokens. -/
def buildCommandJS (c : JupyterConfig) : List String :=
  let python_exe := if c.python_executable == "" then "sys.executable" else c.python_executable
  let module_name := if c.use_notebook then "notebook" else "jupyterlab"
  [python_exe, "-m", module_name,
   "--port=" ++ toString c.port,
   "--no-browser",
   "--allow-root",
   "--ServerApp.notebook_dir=" ++ (if c.project_dir == "" then "Path.cwd()" else c.project_dir),
   "--ServerApp.token=''",
   "--ServerApp.password=''",
   "--ServerApp.disable_check_xsrf=True",
   "--ServerApp.allow_origin='*'",
   "--ServerApp.ip='0.0.0.0'"]
  ++ (if c.args != "" then (c.args.splitOn " ").filter (· != "") else [])
  ++ (if c.debug then ["--debug"] else [])

/-- `JupyterManager._start_process` (lines 229-284).  After a successful
`Popen` the code sets `managed_pid`, `start_time` and — unconditionally —
`restart_count = 0` (line 253), then waits for startup and, on success,
starts the protection thread if `auto_restart` (idempotent).  The third
component records whether a process was spawned. -/
def startProcessJS (e : StartEnv) (c : JupyterConfig) (st : JSState) :
    OpResult × JSState × Bool :=
  match e.spawnPid with
  | none => ({ success := false, message := "进程启动失败: " ++ e.spawnErr }, st, false)
  | some pid =>
    let st1 := { st with process := some pid, managed_pid := some pid,
                         start_time := some e.now, restart_count := 0 }
    if e.startupOk then
      let st2 := if st1.auto_restart && !st1.protection_on then
                   { st1 with protection_on := true, stop_event := false }
                 else st1
      ({ success := true,
         message := "Jupyter " ++ (if c.use_notebook then c.project_dir else "Lab") ++ " 已启动" },
       st2, true)
    else
      let r := stopProcessJS e.stopProbe st1
      ({ success := false, message := "Jupyter 启动超时或失败" }, r.2, true)

/-- The `try` block of `JupyterManager.start` (lines 63-85): environment
validation, `_start_process`, and on success the reassignment of
`self.config` to the merged config. -/
def startJSLaunch (e : StartEnv) (merged : JupyterConfig) (st2 : JSState) :
    OpResult × JSState × Bool :=
  if validateEnvironmentJS e merged then
    let r := startProcessJS e merged st2
    if r.1.success then (r.1, { r.2.1 with config := merged }, r.2.2)
    else r
  else ({ success := false, message := "环境验证失败" }, st2, false)

/-- `JupyterManager.start` (lines 41-85): merge, validate, stop-if-running
(lines 58-61), then `startJSLaunch`.  Third component: whether a spawn
happened. -/
def startJS (e : StartEnv) (st : JSState) (o : Overrides) : OpResult × JSState × Bool :=
  let merged := applyOverrides st.config o
  let v := validateConfig e.fs merged
  if v.1 then
    let pr := isRunningJS e.p1 st
    startJSLaunch e merged (if pr.1 then (stopJS e.stopProbe pr.2).2 else pr.2)
  else
    ({ success := false, message := "配置验证失败: " ++ String.intercalate ", " v.2 }, st, false)

/-! ## The protection loop (`_process_protection`, lines 447-477) -/

/-- The oracles observed by one iteration of the protection loop: the probe
at the `while` condition, whether `stop()` set the event during the wait,
the probe of the in-body `is_running` check, and the environment of the
`start()` call made for a restart attempt. -/
structure TickEnv where
  p1 : Probe
  stopDuringWait : Bool
  p2 : Probe
  startEnv : StartEnv

/-- Lines 459-471 of `_process_protection`: the guard
`restart_count < max_restarts` protects the increment and the `self.start()`
call (line 466); reaching the cap breaks the loop (line 471).  Components:
state, loop continues, restart attempt issued. -/
def restartAttemptJS (t : TickEnv) (b2 : JSState) : JSState × Bool × Bool :=
  if b2.restart_count < b2.max_restarts then
    let st4 := { b2 with restart_count := b2.restart_count + 1 }
    let r := startJS t.startEnv st4 noOverrides
    (r.2.1, true, true)
  else (b2, false, false)

/-- One iteration of `_process_protection` (the `while` condition of line
451 followed by the loop body of lines 452-471).  Returns the state after
the iteration, whether the loop continues, and whether an automatic restart
attempt was issued. -/
def protectionTickJS (t : TickEnv) (st : JSState) : JSState × Bool × Bool :=
  if st.stop_event then (st, false, false)
  else
    let w := isRunningJS t.p1 st
    if !w.1 then (w.2, false, false)
    else
      let st2 := if t.stopDuringWait then { w.2 with stop_event := true } else w.2
      if st2.stop_event then (st2, false, false)
      else
        let b := isRunningJS t.p2 st2
        if b.1 then (b.2, true, false)
        else restartAttemptJS t b.2

/-- `_process_protection`, one `TickEnv` of the oracle list per loop
iteration; the second component counts the automatic restart attempts
issued. -/
def protectionLoopJS : List TickEnv → JSState → Nat → JSState × Nat
  | [], st, attempts => (st, attempts)
  | t :: rest, st, attempts =>
    let o := protectionTickJS t st
    if o.2.1 then protectionLoopJS rest o.1 (if o.2.2 then attempts + 1 else attempts)
    else (o.1, attempts)

/-! ## The web_app manager (`src/src-tauri/resources/web_app.py`), model `WA` -/

/-- The mutable state of `web_app.JupyterManager` (lines 62-74). -/
structure WAState where
  process : Option Nat
  port : Int
  python_executable : String
  project_dir : String
  use_notebook : Bool
  auto_restart : Bool
  check_interval : Nat
  max_restarts : Int
  restart_count : Int
  start_time : Option Nat
  open_file : Option String
deriving DecidableEq

/-- `web_app.JupyterManager.is_running` (lines 317-326): no PID or port
fallback; a non-`None` poll result clears `self.process`. -/
def isRunningWA (p : Probe) (st : WAState) : Bool × WAState :=
  match st.process with
  | none => (false, st)
  | some h =>
    if p.pollRunning h then (true, st) else (false, { st with process := none })

/-- `web_app.JupyterManager.stop` (lines 289-315): the not-running branch
returns `success: False`. -/
def stopWA (p : Probe) (st : WAState) : OpResult × WAState :=
  let r := isRunningWA p st
  if !r.1 then ({ success := false, message := "Jupyter Lab 未运行" }, r.2)
  else ({ success := true, message := "Jupyter Lab 已停止" },
        { r.2 with process := none, start_time := none })

/-- Python `x or default` for an optional int argument (`port or self.port`,
line 87): `None` and `0` are both falsy. -/
def orElseInt (v : Option Int) (d : Int) : Int :=
  match v with
  | some p => if p != 0 then p else d
  | none => d

/-- Python `x or default` for an optional string argument (lines 88-89):
`None` and `""` are both falsy. -/
def orElseStr (v : Option String) (d : String) : String :=
  match v with
  | some s => if s != "" then s else d
  | none => d

/-- Oracles consumed by one `web_app` `start` call: filesystem, the three
`is_running` probes (line 81, line 249, line 255), `Path.expanduser`,
`Path.resolve`, `Path.relative_to` (`none` models the `ValueError`), the
spawn outcome, the grace-period stderr read, the clock, and the module-level
`CONFIG.get('use_notebook', False)` consulted at line 94. -/
structure WAEnv where
  fs : FS
  p1 : Probe
  expandUser : String → String
  resolvePath : String → String
  relTo : String → String → Option String
  spawnPid : Option Nat
  spawnErr : String
  stderrOut : String
  p2 : Probe
  p3 : Probe
  now : Nat
  configUseNotebook : Bool

/-- The outcome of a `web_app` `start` call: the response dict (projected),
the manager state, whether a child process was spawned, the command vector
built, and the `--ServerApp.default_url` value appended to it, if any. -/
structure WAStartOut where
  result : OpResult
  state : WAState
  spawned : Bool
  cmd : List String
  defaultUrl : Option String
deriving DecidableEq

/-- An early-return failure of `web_app.start`: no spawn, no command. -/
def waFail (st : WAState) (msg : String) : WAStartOut :=
  { result := { success := false, message := msg }, state := st,
    spawned := false, cmd := [], defaultUrl := none }

/-- `web_app.start` lines 87-95: overwrite the manager fields from the
truthy arguments; `open_file` is assigned unconditionally, `use_notebook`
falls back to the module config when the argument is `None`. -/
def waAssignArgs (cfgNb : Bool) (base : WAState) (portArg : Option Int)
    (pyArg dirArg : Option String) (nbArg : Option Bool)
    (openFileArg : Option String) : WAState :=
  { base with
    port := orElseInt portArg base.port,
    python_executable := orElseStr pyArg base.python_executable,
    project_dir := orElseStr dirArg base.project_dir,
    open_file := openFileArg,
    use_notebook := match nbArg with | none => cfgNb | some b => b }

/-- The command vector of `web_app.start` lines 176-198, including the
optional `--ServerApp.default_url` argument. -/
def waBuildCmd (st : WAState) (du : Option String) : List String :=
  [st.python_executable, "-m", if st.use_notebook then "notebook" else "jupyterlab",
   "--ServerApp.port=" ++ toString st.port,
   "--ServerApp.open_browser=False",
   "--ServerApp.allow_origin=\x27*\x27",
   "--ServerApp.disable_check_xsrf=True",
   "--ServerApp.token=\x27\x27",
   "--ServerApp.password=\x27\x27",
   "--ServerApp.root_dir=" ++ st.project_dir]
  ++ (match du with | some u => ["--ServerApp.default_url=" ++ u] | none => [])

/-- `web_app.start` from the interpreter-candidates loop (lines 142-173) to
the end, starting from the state left after the open-file validation.  The
default-url block (lines 187-198) drops `open_file` when `relative_to`
raises; the stderr grace-period check (lines 234-246) uses `waStderrFatal`;
`restart_count` is reset to 0 only in the final success branch (line 257). -/
def startWACore (e : WAEnv) (st3 : WAState) : WAStartOut :=
  if !(e.fs.pathLives st3.python_executable) then
    waFail st3 "没有可用的 Python 解释器"
  else
    let du :=
      match st3.open_file with
      | some f =>
        match e.relTo f st3.project_dir with
        | some rel =>
          (some ((if st3.use_notebook then "/tree" else "/lab/tree") ++ "/" ++ rel), st3)
        | none => (none, { st3 with open_file := none })
      | none => (none, st3)
    let st4 := du.2
    let cmd := waBuildCmd st4 du.1
    match e.spawnPid with
    | none =>
      { result := { success := false, message := "启动异常: " ++ e.spawnErr },
        state := st4, spawned := false, cmd := cmd, defaultUrl := du.1 }
    | some pid =>
      let st5 := { st4 with process := some pid }
      if waStderrFatal e.stderrOut then
        { result := { success := false, message := "启动错误: " ++ e.stderrOut },
          state := st5, spawned := true, cmd := cmd, defaultUrl := du.1 }
      else
        let r2 := isRunningWA e.p2 st5
        if !r2.1 then
          { result := { success := false, message := "启动失败" },
            state := r2.2, spawned := true, cmd := cmd, defaultUrl := du.1 }
        else
          let r3 := isRunningWA e.p3 r2.2
          if r3.1 then
            let okMsg := "Jupyter " ++ (if st4.use_notebook then "Notebook" else "Lab") ++ " 已启动"
            { result := { success := true, message := okMsg },
              state := { r3.2 with start_time := some e.now, restart_count := 0 },
              spawned := true, cmd := cmd, defaultUrl := du.1 }
          else
            { result := { success := false, message := "启动失败" },
              state := r3.2, spawned := true, cmd := cmd, defaultUrl := du.1 }

/-- `web_app.start` lines 103-131 and onward: validate the interpreter path
and the project directory, validate/drop `open_file` (lines 124-131), then
the rest via `startWACore`. -/
def startWAValidated (e : WAEnv) (st1 : WAState) : WAStartOut :=
  if !(e.fs.pathLives st1.python_executable) then
    waFail st1 ("Python 解释器不存在: " ++ st1.python_executable)
  else
    let projectPath := e.expandUser st1.project_dir
    if !(e.fs.pathLives projectPath) then
      waFail st1 ("项目目录不存在: " ++ st1.project_dir)
    else if !(e.fs.isDir projectPath) then
      waFail st1 ("指定路径不是文件夹: " ++ st1.project_dir)
    else
      let st2 := { st1 with project_dir := e.resolvePath projectPath }
      let st3 := { st2 with open_file :=
        match st2.open_file with
        | some f =>
          let rf := e.expandUser f
          if e.fs.pathLives rf && e.fs.isFile rf then some (e.resolvePath rf) else none
        | none => none }
      startWACore e st3

/-- `web_app.JupyterManager.start` (lines 76-287): reject when running
(line 81), assign arguments (lines 87-95), then `startWAValidated`. -/
def startWA (e : WAEnv) (st : WAState) (portArg : Option Int)
    (pyArg dirArg : Option String) (nbArg : Option Bool)
    (openFileArg : Option String) : WAStartOut :=
  let w := isRunningWA e.p1 st
  if w.1 then waFail w.2 "Jupyter 已在运行中"
  else
    startWAValidated e (waAssignArgs e.configUseNotebook w.2 portArg pyArg dirArg nbArg openFileArg)

/-! ## `save_config` (`web_app.py` lines 489-543, `backend_api.py` lines 297-313) -/

/-- `config.get(k)` on a flat string-valued request/config dict. -/
def dictLookup (d : List (String × String)) (k : String) : Option String :=
  match d.find? (fun kv => kv.1 == k) with
  | some kv => some kv.2
  | none => none

/-- Set one key of a flat dict (overwrite, or append when new). -/
def dictSetStr (d : List (String × String)) (k v : String) : List (String × String) :=
  if d.any (fun kv => kv.1 == k) then
    d.map (fun kv => if kv.1 == k then (k, v) else kv)
  else d ++ [(k, v)]

/-- Python `dict.update`: write every request pair, in order. -/
def dictUpdate (d req : List (String × String)) : List (String × String) :=
  req.foldl (fun acc kv => dictSetStr acc kv.1 kv.2) d

/-- Outcome of a `save_config` request: the response, the stored config
after the request, and whether the store was (re)written. -/
structure SaveOut where
  result : OpResult
  stored : List (String × String)
  persisted : Bool
deriving DecidableEq

/-- Success tail of `web_app.save_config` (lines 519-536): update the global
config and write it to disk. -/
def saveConfigWAOk (stored req : List (String × String)) : SaveOut :=
  { result := { success := true, message := "配置已保存" },
    stored := dictUpdate stored req, persisted := true }

/-- `web_app.save_config` lines 508-517: a supplied `project_dir` that is
not an existing directory is rejected before anything is persisted. -/
def saveConfigWADir (fs : FS) (stored req : List (String × String)) : SaveOut :=
  match dictLookup req "project_dir" with
  | some d =>
    if fs.pathLives d && fs.isDir d then saveConfigWAOk stored req
    else { result := { success := false, message := "项目目录路径无效: " ++ d },
           stored := stored, persisted := false }
  | none => saveConfigWAOk stored req

/-- `web_app.save_config` (lines 489-543): a supplied `python_executable`
that is not an existing regular file is rejected first; then the directory
check; otherwise the request is merged into the stored config and written. -/
def saveConfigWA (fs : FS) (stored req : List (String × String)) : SaveOut :=
  match dictLookup req "python_executable" with
  | some p =>
    if fs.pathLives p && fs.isFile p then saveConfigWADir fs stored req
    else { result := { success := false, message := "Python 解释器路径无效: " ++ p },
           stored := stored, persisted := false }
  | none => saveConfigWADir fs stored req

/-- The interpreter-path check of `web_app.save_config` (lines 497-506). -/
def waPyOk (fs : FS) (req : List (String × String)) : Bool :=
  match dictLookup req "python_executable" with
  | some p => fs.pathLives p && fs.isFile p
  | none => true

/-- The directory check of `web_app.save_config` (lines 508-517). -/
def waDirOk (fs : FS) (req : List (String × String)) : Bool :=
  match dictLookup req "project_dir" with
  | some d => fs.pathLives d && fs.isDir d
  | none => true

/-- The path checks of `web_app.save_config` as one predicate. -/
def waPathsOk (fs : FS) (req : List (String × String)) : Bool :=
  waPyOk fs req && waDirOk fs req

/-- `backend_api.save_config` (lines 297-313): `config_storage.update(config)`
and a success response, with no validation of any path. -/
def saveConfigBA (stored req : List (String × String)) : SaveOut :=
  { result := { success := true, message := "配置保存成功" },
    stored := dictUpdate stored req, persisted := true }

/-! ## Dict-level `_merge_config` (`jupyter_service.py` lines 178-188) -/

/-- Python values appearing in a config dict / request body. -/
inductive PyValue where
  | pInt : Int → PyValue
  | pStr : String → PyValue
  | pBool : Bool → PyValue
  | pDict : List (String × String) → PyValue
deriving DecidableEq

/-- The dataclass fields of `JupyterConfig`, in declaration order: exactly
the keyword arguments `cls(**data)` accepts. -/
def configFieldNames : List String :=
  ["port", "python_executable", "project_dir", "use_notebook", "auto_start",
   "auto_restart", "check_interval", "max_restarts", "args", "env", "debug"]

/-- The plain-named methods of `JupyterConfig`. -/
def configMethodNames : List String := ["validate", "to_dict", "from_dict"]

/-- A double-underscore-prefixed key. -/
def isDunderKey (k : String) : Bool := strBeginWith "__" k

/-- `hasattr(self.config, key)` for a `JupyterConfig` instance.  Besides the
dataclass fields and the plain-named methods, such an instance has only the
inherited and dataclass-generated double-underscore attributes
(`__class__`, `__eq__`, `__init__`, `__dataclass_fields__`, ...): every one
of those names starts with `__`, and no plain name outside the fields and
methods is an attribute.  Their exact, Python-version-dependent set is the
oracle `du`, consulted only on double-underscore-prefixed keys. -/
def hasattrJupyterConfig (du : String → Bool) (k : String) : Bool :=
  configFieldNames.contains k || configMethodNames.contains k ||
  (isDunderKey k && du k)

/-- `JupyterConfig.to_dict` (`dataclasses.asdict`): one entry per field. -/
def toDictConfig (c : JupyterConfig) : List (String × PyValue) :=
  [("port", .pInt c.port), ("python_executable", .pStr c.python_executable),
   ("project_dir", .pStr c.project_dir), ("use_notebook", .pBool c.use_notebook),
   ("auto_start", .pBool c.auto_start), ("auto_restart", .pBool c.auto_restart),
   ("check_interval", .pInt c.check_interval), ("max_restarts", .pInt c.max_restarts),
   ("args", .pStr c.args), ("env", .pDict c.envv), ("debug", .pBool c.debug)]

/-- `config_dict[key] = value` (overwrite, or append when the key is new —
the latter happens exactly for the method-named keys). -/
def dictSetPy (d : List (String × PyValue)) (k : String) (v : PyValue) :
    List (String × PyValue) :=
  if d.any (fun kv => kv.1 == k) then
    d.map (fun kv => if kv.1 == k then (k, v) else kv)
  else d ++ [(k, v)]

/-- `_merge_config(**kwargs)` followed by `JupyterConfig.from_dict`
(config.py lines 52-55): copy `to_dict()`, write every kwarg whose key
passes `hasattr(self.config, key)`, then `cls(**data)` — which raises
`TypeError` when a key of the dict is not a dataclass field. -/
def mergeConfigDict (du : String → Bool) (c : JupyterConfig)
    (kwargs : List (String × PyValue)) :
    Except String (List (String × PyValue)) :=
  let d := kwargs.foldl
    (fun d kv => if hasattrJupyterConfig du kv.1 then dictSetPy d kv.1 kv.2 else d)
    (toDictConfig c)
  if d.all (fun kv => configFieldNames.contains kv.1) then .ok d
  else .error "TypeError: unexpected keyword argument"

/-! ## Concrete states, environments and inputs used by counterexamples and
witnesses -/

/-- A liveness snapshot on which every signal reports dead/free. -/
def probeAllDead : Probe :=
  { pidAlive := fun _ => false, pollRunning := fun _ => false, portOccupied := fun _ => false }

/-- A liveness snapshot on which every signal reports alive. -/
def probeAllAlive : Probe :=
  { pidAlive := fun _ => true, pollRunning := fun _ => true, portOccupied := fun _ => true }

/-- A filesystem with no paths. -/
def fsNone : FS := { pathLives := fun _ => false, isFile := fun _ => false, isDir := fun _ => false }

/-- A start environment in which the spawn and startup wait succeed; the
default config (empty interpreter/dir paths) validates against any fs. -/
def envSpawnOk : StartEnv :=
  { fs := fsNone, p1 := probeAllDead, stopProbe := probeAllDead, pythonTestOk := true,
    spawnPid := some 11, spawnErr := "", now := 100, startupOk := true }

/-- Like `envSpawnOk` but the in-`start` liveness probe reports alive. -/
def envSpawnOkAlive : StartEnv :=
  { fs := fsNone, p1 := probeAllAlive, stopProbe := probeAllAlive, pythonTestOk := true,
    spawnPid := some 11, spawnErr := "", now := 100, startupOk := true }

/-- A backend-service manager supervising pid 10, protection on, with two
automatic restarts already accumulated. -/
def stAuto : JSState :=
  { config := defaultJupyterConfig, process := some 10, managed_pid := some 10,
    start_time := some 0, auto_restart := true, check_interval := 5, max_restarts := 3,
    restart_count := 2, protection_on := true, stop_event := false }

/-- `stAuto` with no restart history. -/
def stFresh : JSState := { stAuto with restart_count := 0 }

/-- `stAuto` at the restart cap. -/
def stCap : JSState := { stAuto with restart_count := 3 }

/-- A stopped backend-service manager (no handles) with stale restart
history. -/
def stJSStopped : JSState :=
  { config := defaultJupyterConfig, process := none, managed_pid := none,
    start_time := none, auto_restart := false, check_interval := 2, max_restarts := 3,
    restart_count := 2, protection_on := false, stop_event := false }

/-- A protection-loop iteration in which the process has died and the
restart attempt succeeds. -/
def tickDieRestart : TickEnv :=
  { p1 := probeAllAlive, stopDuringWait := false, p2 := probeAllDead, startEnv := envSpawnOk }

/-- A stopped web_app manager. -/
def stWAStopped : WAState :=
  { process := none, port := 8888, python_executable := "/py", project_dir := "/work",
    use_notebook := false, auto_restart := true, check_interval := 5, max_restarts := 3,
    restart_count := 0, start_time := none, open_file := none }

/-- A running web_app manager (pid 7). -/
def stWARun : WAState := { stWAStopped with process := some 7 }

/-- A web_app environment used while the manager is already running. -/
def envWAIdle : WAEnv :=
  { fs := fsNone, p1 := probeAllAlive, expandUser := id, resolvePath := id,
    relTo := fun _ _ => none, spawnPid := none, spawnErr := "", stderrOut := "",
    p2 := probeAllDead, p3 := probeAllDead, now := 0, configUseNotebook := false }

/-- A filesystem holding the interpreter `/py` and the directory `/work`. -/
def fsC8 : FS :=
  { pathLives := fun s => s == "/py" || s == "/work",
    isFile := fun s => s == "/py",
    isDir := fun s => s == "/work" }

/-- A web_app environment over `fsC8` with a successful spawn. -/
def envC8 : WAEnv :=
  { fs := fsC8, p1 := probeAllDead, expandUser := id, resolvePath := id,
    relTo := fun _ _ => none, spawnPid := some 9, spawnErr := "", stderrOut := "",
    p2 := probeAllAlive, p3 := probeAllAlive, now := 3, configUseNotebook := false }

/-- Overrides carrying only a privileged port. -/
def overridesPort80 : Overrides := { noOverrides with port := some 80 }

/-- A request body with one recognised key and one unrecognised key. -/
def kwargsMixed : List (String × PyValue) :=
  [("port", PyValue.pInt 9000), ("bogus_key", PyValue.pStr "x")]

/-- An over-approximating dunder-attribute oracle: it admits every
double-underscore name, a superset of the attribute set of any Python
version (on which `hasattrJupyterConfig` is monotone). -/
def duAll : String → Bool := fun _ => true

/-- C6 amended: the web_app grace-period check fails the launch exactly when
the lowered stderr output contains one of the five markers; the backend
service startup check matches only the three markers `error:`, `exception`,
`traceback`. -/
theorem c6_early_crash_keywords_amended :
    ∀ out : String,
      (waStderrFatal out = true ↔
        (charsContain "error:".toList (lowerChars out) = true ∨
         charsContain "exception".toList (lowerChars out) = true ∨
         charsContain "traceback".toList (lowerChars out) = true ∨
         charsContain "failed".toList (lowerChars out) = true ∨
         charsContain "fatal".toList (lowerChars out) = true)) ∧
      (jsStderrFatal out = true ↔
        (charsContain "error:".toList (lowerChars out) = true ∨
         charsContain "exception".toList (lowerChars out) = true ∨
         charsContain "traceback".toList (lowerChars out) = true)) := by
  intro out
  by_cases h : out = ""
  · subst h; exact ⟨by decide, by decide⟩
  · constructor <;>
      simp [waStderrFatal, jsStderrFatal, waStderrKeywords, jsStartupKeywords,
        List.any_cons, List.any_nil, h, Bool.or_eq_true, or_assoc]

/-- C6 counterexample: stderr output containing the marker `fatal` (and none
of the three markers of the backend check) is reported fatal by the web_app
check but treated as benign by the backend service startup check, so
early-crash detection is not governed by the five-substring set at both
cited sites. -/
theorem c6_early_crash_keywords_cex :
    charsContain "fatal".toList (lowerChars "FATAL: kernel gateway refused") = true ∧
    waStderrFatal "FATAL: kernel gateway refused" = true ∧
    jsStderrFatal "FATAL: kernel gateway refused" = false := by
  decide

/-! ## Helper lemmas -/

theorem charsBeginWith_self_append (l m : List Char) : charsBeginWith l (l ++ m) = true := by
  induction l with
  | nil => rfl
  | cons a as ih => simp [charsBeginWith, ih]

theorem strBeginWith_self_append (p s : String) : strBeginWith p (p ++ s) = true := by
  show charsBeginWith p.data (p ++ s).data = true
  rw [String.data_append]
  exact charsBeginWith_self_append p.data s.data

theorem isRunningJS_state (p : Probe) (st : JSState) :
    (isRunningJS p st).2 = st ∨
    (isRunningJS p st).2 = { st with managed_pid := none, process := none, start_time := none } := by
  cases hm : st.managed_pid with
  | some pid =>
    by_cases ha : p.pidAlive pid = true
    · left; simp [isRunningJS, hm, ha]
    · right; simp [isRunningJS, hm, ha]
  | none =>
    cases hp : st.process with
    | some h =>
      by_cases hr : p.pollRunning h = true
      · left; simp [isRunningJS, hm, hp, hr]
      · left; simp [isRunningJS, hm, hp, hr]
    | none => left; simp [isRunningJS, hm, hp]

theorem isRunningJS_count (p : Probe) (st : JSState) :
    (isRunningJS p st).2.restart_count = st.restart_count := by
  rcases isRunningJS_state p st with h | h <;> rw [h]

theorem isRunningJS_max (p : Probe) (st : JSState) :
    (isRunningJS p st).2.max_restarts = st.max_restarts := by
  rcases isRunningJS_state p st with h | h <;> rw [h]

theorem isRunningJS_stop_event (p : Probe) (st : JSState) :
    (isRunningJS p st).2.stop_event = st.stop_event := by
  rcases isRunningJS_state p st with h | h <;> rw [h]

theorem isRunningJS_of_true (p : Probe) (st : JSState) :
    (isRunningJS p st).1 = true → (isRunningJS p st).2 = st := by
  intro h
  cases hm : st.managed_pid with
  | some pid =>
    by_cases ha : p.pidAlive pid = true
    · simp [isRunningJS, hm, ha]
    · rw [isRunningJS, hm] at h; simp [ha] at h
  | none =>
    cases hp : st.process with
    | some hh =>
      by_cases hr : p.pollRunning hh = true
      · simp [isRunningJS, hm, hp, hr]
      · simp [isRunningJS, hm, hp, hr]
    | none => simp [isRunningJS, hm, hp]

theorem stopProcessJS_state (p : Probe) (st : JSState) : (stopProcessJS p st).2 = st := by
  cases hp : st.process with
  | some h => cases hm : st.managed_pid <;> simp [stopProcessJS, hp, hm]
  | none =>
    cases hm : st.managed_pid with
    | none => simp [stopProcessJS, hp, hm]
    | some pid =>
      by_cases ha : p.pidAlive pid = true <;> simp [stopProcessJS, hp, hm, ha]

theorem stopJS_state (p : Probe) (st : JSState) :
    (stopJS p st).2 = { st with stop_event := true, protection_on := false, process := none,
                                managed_pid := none, start_time := none, restart_count := 0 } := by
  by_cases h : (stopProcessJS p { st with stop_event := true, protection_on := false }).1 = true <;>
    simp [stopJS, h, stopProcessJS_state]

theorem startProcessJS_max (e : StartEnv) (c : JupyterConfig) (st : JSState) :
    (startProcessJS e c st).2.1.max_restarts = st.max_restarts := by
  cases hs : e.spawnPid with
  | none => simp [startProcessJS, hs]
  | some pid =>
    by_cases ho : e.startupOk = true
    · by_cases hp : (st.auto_restart && !st.protection_on) = true <;>
        simp [startProcessJS, hs, ho, hp]
    · simp [startProcessJS, hs, ho, stopProcessJS_state]

theorem startProcessJS_count (e : StartEnv) (c : JupyterConfig) (st : JSState) :
    (startProcessJS e c st).2.1.restart_count = 0 ∨
    (startProcessJS e c st).2.1.restart_count = st.restart_count := by
  cases hs : e.spawnPid with
  | none => right; simp [startProcessJS, hs]
  | some pid =>
    left
    by_cases ho : e.startupOk = true
    · by_cases hp : (st.auto_restart && !st.protection_on) = true <;>
        simp [startProcessJS, hs, ho, hp]
    · simp [startProcessJS, hs, ho, stopProcessJS_state]

theorem startProcessJS_spawned_count (e : StartEnv) (c : JupyterConfig) (st : JSState) :
    (startProcessJS e c st).2.2 = true → (startProcessJS e c st).2.1.restart_count = 0 := by
  intro _
  cases hs : e.spawnPid with
  | none => simp [startProcessJS, hs] at *
  | some pid =>
    by_cases ho : e.startupOk = true
    · by_cases hp : (st.auto_restart && !st.protection_on) = true <;>
        simp [startProcessJS, hs, ho, hp]
    · simp [startProcessJS, hs, ho, stopProcessJS_state]

theorem stModJS_max (e : StartEnv) (st : JSState) :
    (if (isRunningJS e.p1 st).1 = true then (stopJS e.stopProbe (isRunningJS e.p1 st).2).2
     else (isRunningJS e.p1 st).2).max_restarts = st.max_restarts := by
  by_cases h : (isRunningJS e.p1 st).1 = true <;> simp [h, stopJS_state, isRunningJS_max]

theorem stModJS_count (e : StartEnv) (st : JSState) :
    (if (isRunningJS e.p1 st).1 = true then (stopJS e.stopProbe (isRunningJS e.p1 st).2).2
     else (isRunningJS e.p1 st).2).restart_count = 0 ∨
    (if (isRunningJS e.p1 st).1 = true then (stopJS e.stopProbe (isRunningJS e.p1 st).2).2
     else (isRunningJS e.p1 st).2).restart_count = st.restart_count := by
  by_cases h : (isRunningJS e.p1 st).1 = true
  · left; simp [h, stopJS_state]
  · right; simp [h, isRunningJS_count]

theorem startJSLaunch_max (e : StartEnv) (c : JupyterConfig) (s : JSState) :
    (startJSLaunch e c s).2.1.max_restarts = s.max_restarts := by
  unfold startJSLaunch
  by_cases he : validateEnvironmentJS e c = true
  · by_cases hsuc : (startProcessJS e c s).1.success = true <;>
      simp [he, hsuc, startProcessJS_max]
  · simp [he]

theorem startJSLaunch_count (e : StartEnv) (c : JupyterConfig) (s : JSState) :
    (startJSLaunch e c s).2.1.restart_count = 0 ∨
    (startJSLaunch e c s).2.1.restart_count = s.restart_count := by
  unfold startJSLaunch
  by_cases he : validateEnvironmentJS e c = true
  · by_cases hsuc : (startProcessJS e c s).1.success = true <;>
      simpa [he, hsuc] using startProcessJS_count e c s
  · right; simp [he]

theorem startJSLaunch_spawned_count (e : StartEnv) (c : JupyterConfig) (s : JSState) :
    (startJSLaunch e c s).2.2 = true → (startJSLaunch e c s).2.1.restart_count = 0 := by
  unfold startJSLaunch
  by_cases he : validateEnvironmentJS e c = true
  · by_cases hsuc : (startProcessJS e c s).1.success = true
    · intro h
      simp only [he, hsuc, if_true] at h ⊢
      exact startProcessJS_spawned_count e c s (by simpa using h)
    · intro h
      simp only [he, hsuc, if_true, if_false] at h ⊢
      exact startProcessJS_spawned_count e c s (by simpa using h)
  · simp [he]

theorem startJS_max (e : StartEnv) (st : JSState) (o : Overrides) :
    (startJS e st o).2.1.max_restarts = st.max_restarts := by
  unfold startJS
  by_cases hv : (validateConfig e.fs (applyOverrides st.config o)).1 = true
  · simp only [hv, if_true]
    rw [startJSLaunch_max]
    exact stModJS_max e st
  · simp [hv]

theorem startJS_count (e : StartEnv) (st : JSState) (o : Overrides) :
    (startJS e st o).2.1.restart_count = 0 ∨
    (startJS e st o).2.1.restart_count = st.restart_count := by
  unfold startJS
  by_cases hv : (validateConfig e.fs (applyOverrides st.config o)).1 = true
  · simp only [hv, if_true]
    rcases startJSLaunch_count e (applyOverrides st.config o)
        (if (isRunningJS e.p1 st).1 = true then (stopJS e.stopProbe (isRunningJS e.p1 st).2).2
         else (isRunningJS e.p1 st).2) with h | h
    · left; exact h
    · rw [h]; exact stModJS_count e st
  · right; simp [hv]

theorem startJS_spawned_count (e : StartEnv) (st : JSState) (o : Overrides) :
    (startJS e st o).2.2 = true → (startJS e st o).2.1.restart_count = 0 := by
  unfold startJS
  by_cases hv : (validateConfig e.fs (applyOverrides st.config o)).1 = true
  · simp only [hv, if_true]
    exact startJSLaunch_spawned_count e (applyOverrides st.config o) _
  · simp [hv]

theorem validateConfig_port_out (fs : FS) (c : JupyterConfig)
    (h : c.port < 1024 ∨ 65535 < c.port) : (validateConfig fs c).1 = false := by
  unfold validateConfig
  have hb : (decide (c.port < 1024) || decide (c.port > 65535)) = true := by
    rcases h with h | h <;> simp [h]
  simp [hb, List.isEmpty]

theorem restartAttemptJS_max (t : TickEnv) (b2 : JSState) :
    (restartAttemptJS t b2).1.max_restarts = b2.max_restarts := by
  unfold restartAttemptJS
  by_cases hg : b2.restart_count < b2.max_restarts
  · simp only [if_pos hg]
    rw [startJS_max]
  · simp [hg]

theorem restartAttemptJS_count_le (t : TickEnv) (b2 : JSState)
    (h0 : 0 ≤ b2.max_restarts) (h1 : b2.restart_count ≤ b2.max_restarts) :
    (restartAttemptJS t b2).1.restart_count ≤ b2.max_restarts := by
  unfold restartAttemptJS
  by_cases hg : b2.restart_count < b2.max_restarts
  · simp only [if_pos hg]
    rcases startJS_count t.startEnv { b2 with restart_count := b2.restart_count + 1 }
        noOverrides with h | h
    · rw [h]; exact h0
    · rw [h]
      show b2.restart_count + 1 ≤ b2.max_restarts
      omega
  · simp only [if_neg hg]
    exact h1

theorem restartAttemptJS_at_cap (t : TickEnv) (b2 : JSState)
    (h : b2.max_restarts ≤ b2.restart_count) :
    (restartAttemptJS t b2).2.2 = false ∧
    (restartAttemptJS t b2).1.restart_count = b2.restart_count := by
  have hg : ¬ (b2.restart_count < b2.max_restarts) := by omega
  unfold restartAttemptJS
  simp [hg]

theorem protectionTickJS_max (t : TickEnv) (st : JSState) :
    (protectionTickJS t st).1.max_restarts = st.max_restarts := by
  unfold protectionTickJS
  by_cases h1 : st.stop_event = true
  · simp [h1]
  · simp only [h1, if_false, Bool.false_eq_true]
    by_cases hw : (isRunningJS t.p1 st).1 = true
    · simp only [hw, Bool.not_true, Bool.false_eq_true, if_false]
      by_cases hsw : t.stopDuringWait = true
      · simp [hsw, isRunningJS_max]
      · simp only [hsw, if_false, isRunningJS_stop_event, h1, Bool.false_eq_true]
        by_cases hb : (isRunningJS t.p2 (isRunningJS t.p1 st).2).1 = true
        · simp [hb, isRunningJS_max]
        · simp only [hb, Bool.false_eq_true, if_false]
          rw [restartAttemptJS_max, isRunningJS_max, isRunningJS_max]
    · simp [hw, isRunningJS_max]

theorem protectionTickJS_count_le (t : TickEnv) (st : JSState)
    (h0 : 0 ≤ st.max_restarts) (h1 : st.restart_count ≤ st.max_restarts) :
    (protectionTickJS t st).1.restart_count ≤ st.max_restarts := by
  unfold protectionTickJS
  by_cases hse : st.stop_event = true
  · simpa [hse] using h1
  · simp only [hse, if_false, Bool.false_eq_true]
    by_cases hw : (isRunningJS t.p1 st).1 = true
    · simp only [hw, Bool.not_true, Bool.false_eq_true, if_false]
      by_cases hsw : t.stopDuringWait = true
      · simpa [hsw, isRunningJS_count] using h1
      · simp only [hsw, if_false, isRunningJS_stop_event, hse, Bool.false_eq_true]
        by_cases hb : (isRunningJS t.p2 (isRunningJS t.p1 st).2).1 = true
        · simpa [hb, isRunningJS_count] using h1
        · simp only [hb, Bool.false_eq_true, if_false]
          have hcnt : (isRunningJS t.p2 (isRunningJS t.p1 st).2).2.restart_count
              = st.restart_count := by rw [isRunningJS_count, isRunningJS_count]
          have hmax : (isRunningJS t.p2 (isRunningJS t.p1 st).2).2.max_restarts
              = st.max_restarts := by rw [isRunningJS_max, isRunningJS_max]
          have := restartAttemptJS_count_le t (isRunningJS t.p2 (isRunningJS t.p1 st).2).2
              (by rw [hmax]; exact h0) (by rw [hcnt, hmax]; exact h1)
          rw [hmax] at this
          exact this
    · simpa [hw, isRunningJS_count] using h1

theorem protectionTickJS_at_cap (t : TickEnv) (st : JSState)
    (h : st.max_restarts ≤ st.restart_count) :
    (protectionTickJS t st).2.2 = false ∧
    (protectionTickJS t st).1.restart_count = st.restart_count := by
  unfold protectionTickJS
  by_cases hse : st.stop_event = true
  · simp [hse]
  · simp only [hse, if_false, Bool.false_eq_true]
    by_cases hw : (isRunningJS t.p1 st).1 = true
    · simp only [hw, Bool.not_true, Bool.false_eq_true, if_false]
      by_cases hsw : t.stopDuringWait = true
      · simp [hsw, isRunningJS_count]
      · simp only [hsw, if_false, isRunningJS_stop_event, hse, Bool.false_eq_true]
        by_cases hb : (isRunningJS t.p2 (isRunningJS t.p1 st).2).1 = true
        · simp [hb, isRunningJS_count]
        · simp only [hb, Bool.false_eq_true, if_false]
          have hcnt : (isRunningJS t.p2 (isRunningJS t.p1 st).2).2.restart_count
              = st.restart_count := by rw [isRunningJS_count, isRunningJS_count]
          have hmax : (isRunningJS t.p2 (isRunningJS t.p1 st).2).2.max_restarts
              = st.max_restarts := by rw [isRunningJS_max, isRunningJS_max]
          obtain ⟨ha, hc⟩ := restartAttemptJS_at_cap t
              (isRunningJS t.p2 (isRunningJS t.p1 st).2).2 (by rw [hcnt, hmax]; exact h)
          exact ⟨ha, by rw [hc, hcnt]⟩
    · simp [hw, isRunningJS_count]

theorem protectionLoopJS_at_cap (ticks : List TickEnv) :
    ∀ (st : JSState) (a : Nat), st.max_restarts ≤ st.restart_count →
      (protectionLoopJS ticks st a).2 = a := by
  induction ticks with
  | nil => intro st a _; rfl
  | cons t rest ih =>
    intro st a h
    simp only [protectionLoopJS]
    obtain ⟨hatt, hcnt⟩ := protectionTickJS_at_cap t st h
    by_cases hc : (protectionTickJS t st).2.1 = true
    · simp only [hc, if_true, hatt, Bool.false_eq_true, if_false]
      exact ih _ _ (by rw [protectionTickJS_max, hcnt]; exact h)
    · simp [hc]

theorem protectionLoopJS_invariant (ticks : List TickEnv) :
    ∀ (st : JSState) (a : Nat), 0 ≤ st.max_restarts →
      st.restart_count ≤ st.max_restarts →
      (protectionLoopJS ticks st a).1.restart_count ≤
        (protectionLoopJS ticks st a).1.max_restarts := by
  induction ticks with
  | nil => intro st a _ h1; simpa [protectionLoopJS] using h1
  | cons t rest ih =>
    intro st a h0 h1
    simp only [protectionLoopJS]
    have hle := protectionTickJS_count_le t st h0 h1
    have hmx := protectionTickJS_max t st
    by_cases hc : (protectionTickJS t st).2.1 = true
    · simp only [hc, if_true]
      exact ih _ _ (by rw [hmx]; exact h0) (by rw [hmx]; exact hle)
    · simp only [hc, Bool.false_eq_true, if_false]
      rw [hmx]; exact hle

theorem isRunningWA_state (p : Probe) (st : WAState) :
    (isRunningWA p st).2 = st ∨ (isRunningWA p st).2 = { st with process := none } := by
  cases hp : st.process with
  | none => left; simp [isRunningWA, hp]
  | some h =>
    by_cases hr : p.pollRunning h = true
    · left; simp [isRunningWA, hp, hr]
    · right; simp [isRunningWA, hp, hr]

theorem isRunningWA_of_true (p : Probe) (st : WAState) :
    (isRunningWA p st).1 = true → (isRunningWA p st).2 = st := by
  intro h
  cases hp : st.process with
  | none => simp [isRunningWA, hp]
  | some hh =>
    by_cases hr : p.pollRunning hh = true
    · simp [isRunningWA, hp, hr]
    · rw [isRunningWA, hp] at h; simp [hr] at h

theorem startWACore_defaultUrl_none (e : WAEnv) (s : WAState) (h : s.open_file = none) :
    (startWACore e s).defaultUrl = none := by
  unfold startWACore
  by_cases hp : e.fs.pathLives s.python_executable = true
  · simp only [hp, Bool.not_true, Bool.false_eq_true, if_false, h]
    cases e.spawnPid with
    | none => rfl
    | some pid =>
      by_cases hf : waStderrFatal e.stderrOut = true
      · simp [hf]
      · simp only [hf, Bool.false_eq_true, if_false]
        split
        · rfl
        · split <;> rfl
  · simp [hp, waFail]

theorem startWACore_relTo_drop (e : WAEnv) (s : WAState) (f1 : String)
    (hof : s.open_file = some f1)
    (hr : e.relTo f1 s.project_dir = none) :
    (startWACore e s).result = (startWACore e { s with open_file := none }).result ∧
    (startWACore e s).spawned = (startWACore e { s with open_file := none }).spawned ∧
    (startWACore e s).cmd = (startWACore e { s with open_file := none }).cmd ∧
    (startWACore e s).defaultUrl = (startWACore e { s with open_file := none }).defaultUrl := by
  unfold startWACore
  by_cases hp : e.fs.pathLives s.python_executable = true
  · simp only [hp, Bool.not_true, Bool.false_eq_true, if_false, hof, hr]
    exact ⟨trivial, trivial, trivial, trivial⟩
  · simp [hp, waFail]

theorem startWAValidated_drop (e : WAEnv) (s : WAState) (f : String)
    (h : e.fs.pathLives (e.expandUser f) = false ∨ e.fs.isFile (e.expandUser f) = false ∨
         e.relTo (e.resolvePath (e.expandUser f))
           (e.resolvePath (e.expandUser s.project_dir)) = none) :
    (startWAValidated e { s with open_file := some f }).result
      = (startWAValidated e { s with open_file := none }).result ∧
    (startWAValidated e { s with open_file := some f }).spawned
      = (startWAValidated e { s with open_file := none }).spawned ∧
    (startWAValidated e { s with open_file := some f }).cmd
      = (startWAValidated e { s with open_file := none }).cmd ∧
    (startWAValidated e { s with open_file := some f }).defaultUrl = none := by
  unfold startWAValidated
  by_cases h1 : e.fs.pathLives s.python_executable = true
  case neg => simp [h1, waFail]
  case pos =>
    by_cases h2 : e.fs.pathLives (e.expandUser s.project_dir) = true
    case neg => simp [h1, h2, waFail]
    case pos =>
      by_cases h3 : e.fs.isDir (e.expandUser s.project_dir) = true
      case neg => simp [h1, h2, h3, waFail]
      case pos =>
        simp only [h1, h2, h3, Bool.not_true, Bool.not_false, Bool.false_eq_true, if_false,
          if_true]
        by_cases h4 : (e.fs.pathLives (e.expandUser f) && e.fs.isFile (e.expandUser f)) = true
        · have hr : e.relTo (e.resolvePath (e.expandUser f))
              (e.resolvePath (e.expandUser s.project_dir)) = none := by
            rcases h with h | h | h
            · rw [h] at h4; simp at h4
            · rw [h] at h4; simp at h4
            · exact h
          simp only [h4, if_true]
          obtain ⟨ha, hb, hc, hd⟩ := startWACore_relTo_drop e
            { s with project_dir := e.resolvePath (e.expandUser s.project_dir),
                     open_file := some (e.resolvePath (e.expandUser f)) }
            (e.resolvePath (e.expandUser f)) rfl hr
          exact ⟨ha, hb, hc, hd.trans (startWACore_defaultUrl_none e _ rfl)⟩
        · simp only [h4, Bool.false_eq_true, if_false]
          refine ⟨trivial, trivial, trivial, startWACore_defaultUrl_none e _ rfl⟩

theorem toDictConfig_keys (c : JupyterConfig) :
    (toDictConfig c).all (fun kv => configFieldNames.contains kv.1) = true := by
  simp only [toDictConfig, List.all_cons, List.all_nil]
  decide

theorem dictSetPy_keys (d : List (String × PyValue)) (k : String) (v : PyValue)
    (hd : d.all (fun kv => configFieldNames.contains kv.1) = true)
    (hk : configFieldNames.contains k = true) :
    (dictSetPy d k v).all (fun kv => configFieldNames.contains kv.1) = true := by
  unfold dictSetPy
  split
  · simp only [List.all_eq_true] at hd ⊢
    intro kv hkv
    rcases List.mem_map.mp hkv with ⟨kv0, hkv0, hmap⟩
    by_cases hkk : (kv0.1 == k) = true
    · rw [if_pos hkk] at hmap
      rw [← hmap]
      exact hk
    · rw [if_neg hkk] at hmap
      rw [← hmap]
      exact hd kv0 hkv0
  · simp only [List.all_append, List.all_cons, List.all_nil, Bool.and_eq_true]
    exact ⟨hd, hk, trivial⟩

theorem mergeFoldJS (du : String → Bool) (kwargs : List (String × PyValue)) :
    ∀ (d : List (String × PyValue)),
      d.all (fun kv => configFieldNames.contains kv.1) = true →
      (∀ kv ∈ kwargs, hasattrJupyterConfig du kv.1 = true →
        configFieldNames.contains kv.1 = true) →
      ((kwargs.foldl
          (fun d kv => if hasattrJupyterConfig du kv.1 then dictSetPy d kv.1 kv.2 else d)
          d).all (fun kv => configFieldNames.contains kv.1) = true ∧
       kwargs.foldl
          (fun d kv => if hasattrJupyterConfig du kv.1 then dictSetPy d kv.1 kv.2 else d) d
        = kwargs.foldl
            (fun d kv => if configFieldNames.contains kv.1 then dictSetPy d kv.1 kv.2 else d)
            d) := by
  induction kwargs with
  | nil => intro d hd _; exact ⟨hd, rfl⟩
  | cons kv rest ih =>
    intro d hd hks
    have hmem : kv ∈ kv :: rest := List.mem_cons_self kv rest
    have hstep : (if hasattrJupyterConfig du kv.1 = true then dictSetPy d kv.1 kv.2 else d)
        = (if configFieldNames.contains kv.1 = true then dictSetPy d kv.1 kv.2 else d) := by
      by_cases hha : hasattrJupyterConfig du kv.1 = true
      · rw [if_pos hha, if_pos (hks kv hmem hha)]
      · have hcc : configFieldNames.contains kv.1 = false := by
          cases hc : configFieldNames.contains kv.1
          · rfl
          · exact absurd (by unfold hasattrJupyterConfig; rw [hc]; rfl) hha
        rw [if_neg hha, hcc]
        simp
    have hd2 : (if hasattrJupyterConfig du kv.1 = true then dictSetPy d kv.1 kv.2 else d).all
        (fun kv => configFieldNames.contains kv.1) = true := by
      by_cases hha : hasattrJupyterConfig du kv.1 = true
      · rw [if_pos hha]
        exact dictSetPy_keys d kv.1 kv.2 hd (hks kv hmem hha)
      · rw [if_neg hha]
        exact hd
    simp only [List.foldl_cons]
    obtain ⟨ha, hb⟩ := ih _ hd2 (fun kv2 h2 => hks kv2 (List.mem_cons_of_mem kv h2))
    refine ⟨ha, ?_⟩
    rw [hb, hstep]

theorem charsBeginWith_extend : ∀ (l m r : List Char),
    charsBeginWith l m = true → charsBeginWith l (m ++ r) = true := by
  intro l
  induction l with
  | nil => intro m r _; rfl
  | cons a as ih =>
    intro m r h
    cases m with
    | nil => simp [charsBeginWith] at h
    | cons b bs =>
      simp only [charsBeginWith, Bool.and_eq_true] at h
      simp only [List.cons_append, charsBeginWith, Bool.and_eq_true]
      exact ⟨h.1, ih bs r h.2⟩

theorem strBeginWith_config_error (x : String) :
    strBeginWith "配置验证失败" ("配置验证失败: " ++ x) = true := by
  show charsBeginWith "配置验证失败".data ("配置验证失败: " ++ x).data = true
  rw [String.data_append]
  exact charsBeginWith_extend _ _ _ (by decide)

theorem saveConfigWADir_spec (fs : FS) (stored req : List (String × String)) :
    (waDirOk fs req = true → saveConfigWADir fs stored req = saveConfigWAOk stored req) ∧
    (waDirOk fs req = false →
      (saveConfigWADir fs stored req).result.success = false ∧
      (saveConfigWADir fs stored req).persisted = false ∧
      (saveConfigWADir fs stored req).stored = stored) := by
  unfold waDirOk saveConfigWADir
  cases hd : dictLookup req "project_dir" with
  | none =>
    refine ⟨fun _ => rfl, fun h => ?_⟩
    simp at h
  | some d2 =>
    by_cases hc : (fs.pathLives d2 && fs.isDir d2) = true
    · refine ⟨fun _ => ?_, fun h => ?_⟩
      · simp [hc]
      · simp [hc] at h
    · refine ⟨fun h => absurd h hc, fun _ => ?_⟩
      simp only [if_neg hc]
      exact ⟨trivial, trivial, trivial⟩

theorem saveConfigWA_spec (fs : FS) (stored req : List (String × String)) :
    (waPyOk fs req = true → saveConfigWA fs stored req = saveConfigWADir fs stored req) ∧
    (waPyOk fs req = false →
      (saveConfigWA fs stored req).result.success = false ∧
      (saveConfigWA fs stored req).persisted = false ∧
      (saveConfigWA fs stored req).stored = stored) := by
  unfold waPyOk saveConfigWA
  cases hp : dictLookup req "python_executable" with
  | none =>
    refine ⟨fun _ => rfl, fun h => ?_⟩
    simp at h
  | some p =>
    by_cases hc : (fs.pathLives p && fs.isFile p) = true
    · refine ⟨fun _ => ?_, fun h => ?_⟩
      · simp [hc]
      · simp [hc] at h
    · refine ⟨fun h => absurd h hc, fun _ => ?_⟩
      simp only [if_neg hc]
      exact ⟨trivial, trivial, trivial⟩

/-! ## Claim theorems -/

/-- C1 (amended): `restart_count` becomes 0 after any `start()` in which the
process spawn happens (jupyter_service.py line 253 resets it unconditionally
right after `Popen`), whether the call is manual or issued by the protection
loop; only a start that fails before spawning leaves the counter in place.
In particular a successful manual `start()` resets it to 0. -/
theorem c1_restart_reset_amended :
    ∀ (e : StartEnv) (st : JSState) (o : Overrides),
      (startJS e st o).2.2 = true → (startJS e st o).2.1.restart_count = 0 :=
  fun e st o h => startJS_spawned_count e st o h

/-- C1 witness: a concrete manual start that spawns ends with the counter
at 0. -/
theorem c1_restart_reset_amended_wit :
    (startJS envSpawnOk stJSStopped noOverrides).2.2 = true ∧
    (startJS envSpawnOk stJSStopped noOverrides).2.1.restart_count = 0 :=
  ⟨by decide, c1_restart_reset_amended envSpawnOk stJSStopped noOverrides (by decide)⟩

/-- C1 counterexample: an automatic restart performed by the protection loop
does not preserve the accumulated `restart_count`: starting from a state
with two accumulated automatic restarts, one loop iteration in which the
process has died and the restart succeeds performs one restart attempt and
leaves `restart_count` at 0, not 3 (the merged `start()` reset it). -/
theorem c1_auto_restart_reset_cex :
    stAuto.restart_count = 2 ∧
    (protectionLoopJS [tickDieRestart] stAuto 0).2 = 1 ∧
    (protectionLoopJS [tickDieRestart] stAuto 0).1.restart_count = 0 := by
  decide

/-- C2 (amended): `restart_count` never exceeds `max_restarts` across any
protection-loop run, and once the counter has reached the cap the loop
issues no further automatic restart attempts; but the "exactly
`max_restarts` attempts when the process repeatedly dies" scenario holds
only when the restart attempts fail before spawning — an automatic restart
that spawns successfully resets the counter, so more than `max_restarts`
attempts can occur across successful recoveries. -/
theorem c2_restart_cap_amended :
    (∀ (ticks : List TickEnv) (st : JSState) (a : Nat),
        0 ≤ st.max_restarts → st.restart_count ≤ st.max_restarts →
        (protectionLoopJS ticks st a).1.restart_count ≤
          (protectionLoopJS ticks st a).1.max_restarts) ∧
    (∀ (ticks : List TickEnv) (st : JSState) (a : Nat),
        st.max_restarts ≤ st.restart_count →
        (protectionLoopJS ticks st a).2 = a) :=
  ⟨fun ticks st a h0 h1 => protectionLoopJS_invariant ticks st a h0 h1,
   fun ticks st a h => protectionLoopJS_at_cap ticks st a h⟩

/-- C2 witness: the invariant at a concrete four-iteration run, and the
cap-stops-attempts property at a concrete state sitting at the cap. -/
theorem c2_restart_cap_amended_wit :
    ((0 : Int) ≤ stFresh.max_restarts ∧ stFresh.restart_count ≤ stFresh.max_restarts ∧
      (protectionLoopJS (List.replicate 4 tickDieRestart) stFresh 0).1.restart_count ≤
        (protectionLoopJS (List.replicate 4 tickDieRestart) stFresh 0).1.max_restarts) ∧
    (stCap.max_restarts ≤ stCap.restart_count ∧
      (protectionLoopJS [tickDieRestart] stCap 0).2 = 0) :=
  ⟨⟨by decide, by decide,
     c2_restart_cap_amended.1 (List.replicate 4 tickDieRestart) stFresh 0 (by decide) (by decide)⟩,
   ⟨by decide, c2_restart_cap_amended.2 [tickDieRestart] stCap 0 (by decide)⟩⟩

/-- C2 counterexample: with `max_restarts = 3` and a process that repeatedly
dies, more than 3 automatic restart attempts can occur: four loop iterations
in which the process dies and the restart succeeds issue 4 attempts, because
every successful restart resets the counter. -/
theorem c2_exact_three_restarts_cex :
    stFresh.max_restarts = 3 ∧
    (protectionLoopJS (List.replicate 4 tickDieRestart) stFresh 0).2 = 4 := by
  decide

/-- C3 (amended): only the web_app manager rejects a `start` while the
liveness probe confirms the process alive — with failure message
"Jupyter 已在运行中" and no spawn; the backend-service manager instead
stops the running process (jupyter_service.py lines 58-61) and proceeds to
spawn a new one whenever the merged config validates, the environment
validates, and `Popen` succeeds. -/
theorem c3_already_running_amended :
    (∀ (e : WAEnv) (st : WAState) (pa : Option Int) (py da : Option String)
        (nb : Option Bool) (ofa : Option String),
        (isRunningWA e.p1 st).1 = true →
        (startWA e st pa py da nb ofa).result
            = { success := false, message := "Jupyter 已在运行中" } ∧
        (startWA e st pa py da nb ofa).spawned = false) ∧
    (∀ (e : StartEnv) (st : JSState) (o : Overrides) (pid : Nat),
        (isRunningJS e.p1 st).1 = true →
        (validateConfig e.fs (applyOverrides st.config o)).1 = true →
        validateEnvironmentJS e (applyOverrides st.config o) = true →
        e.spawnPid = some pid →
        (startJS e st o).2.2 = true) := by
  constructor
  · intro e st pa py da nb ofa h
    unfold startWA
    simp [h, waFail]
  · intro e st o pid _ hv he hs
    unfold startJS
    simp only [hv, if_true]
    unfold startJSLaunch
    simp only [he, if_true]
    have hsp : ∀ s : JSState,
        (startProcessJS e (applyOverrides st.config o) s).2.2 = true := by
      intro s
      unfold startProcessJS
      rw [hs]
      by_cases ho : e.startupOk = true
      · simp [ho]
      · simp [ho]
    by_cases hsuc : (startProcessJS e (applyOverrides st.config o)
        (if (isRunningJS e.p1 st).1 = true then (stopJS e.stopProbe (isRunningJS e.p1 st).2).2
         else (isRunningJS e.p1 st).2)).1.success = true
    · simp only [hsuc, if_true]
      exact hsp _
    · simp only [if_neg hsuc]
      exact hsp _

/-- C3 witness: web_app rejection at a concrete running state; backend
spawn-through at a concrete running state. -/
theorem c3_already_running_amended_wit :
    ((isRunningWA envWAIdle.p1 stWARun).1 = true ∧
      (startWA envWAIdle stWARun none none none none none).result
        = { success := false, message := "Jupyter 已在运行中" } ∧
      (startWA envWAIdle stWARun none none none none none).spawned = false) ∧
    ((isRunningJS envSpawnOkAlive.p1 stAuto).1 = true ∧
      (startJS envSpawnOkAlive stAuto noOverrides).2.2 = true) :=
  ⟨⟨by decide,
    (c3_already_running_amended.1 envWAIdle stWARun none none none none none (by decide)).1,
    (c3_already_running_amended.1 envWAIdle stWARun none none none none none (by decide)).2⟩,
   ⟨by decide,
    c3_already_running_amended.2 envSpawnOkAlive stAuto noOverrides 11
      (by decide) (by decide) (by decide) (by decide)⟩⟩

/-- C3 counterexample: in the backend-service manager, with the liveness
probe confirming the supervised process (pid 10) alive, `start()` is not
rejected: it returns success and a new process is spawned. -/
theorem c3_already_running_cex :
    (isRunningJS envSpawnOkAlive.p1 stAuto).1 = true ∧
    (startJS envSpawnOkAlive stAuto noOverrides).1.success = true ∧
    (startJS envSpawnOkAlive stAuto noOverrides).2.2 = true := by
  decide

/-- C4 (amended): in the backend-service manager, `stop()` on a not-running
state (no handles held, or only a stale dead pid) is a no-op returning
`success = true` with the distinguishing message "Jupyter 未运行"; the
web_app manager instead returns `success = false` with its message
"Jupyter Lab 未运行" — distinguishing, and raising no exception, but a
failure rather than a success result. -/
theorem c4_stop_noop_amended :
    (∀ (p : Probe) (st : JSState), st.process = none → st.managed_pid = none →
        (stopJS p st).1 = { success := true, message := "Jupyter 未运行" }) ∧
    (∀ (p : Probe) (st : JSState) (pid : Nat), st.process = none →
        st.managed_pid = some pid → p.pidAlive pid = false →
        (stopJS p st).1 = { success := true, message := "Jupyter 未运行" }) ∧
    (∀ (p : Probe) (st : WAState), (isRunningWA p st).1 = false →
        (stopWA p st).1 = { success := false, message := "Jupyter Lab 未运行" }) := by
  refine ⟨?_, ?_, ?_⟩
  · intro p st hp hm
    unfold stopJS stopProcessJS
    simp [hp, hm]
  · intro p st pid hp hm ha
    unfold stopJS stopProcessJS
    simp [hp, hm, ha]
  · intro p st h
    unfold stopWA
    simp [h]

/-- C4 witness: concrete stopped states for both managers. -/
theorem c4_stop_noop_amended_wit :
    (stJSStopped.process = none ∧ stJSStopped.managed_pid = none ∧
      (stopJS probeAllDead stJSStopped).1 = { success := true, message := "Jupyter 未运行" }) ∧
    ((isRunningWA probeAllDead stWAStopped).1 = false ∧
      (stopWA probeAllDead stWAStopped).1
        = { success := false, message := "Jupyter Lab 未运行" }) :=
  ⟨⟨rfl, rfl, c4_stop_noop_amended.1 probeAllDead stJSStopped rfl rfl⟩,
   ⟨by decide, c4_stop_noop_amended.2.2 probeAllDead stWAStopped (by decide)⟩⟩

/-- C4 counterexample: the web_app manager's `stop()` on a state with no
running process returns `success = false` (web_app.py lines 291-292), not a
success result. -/
theorem c4_stop_noop_cex :
    (isRunningWA probeAllDead stWAStopped).1 = false ∧
    (stopWA probeAllDead stWAStopped).1.success = false ∧
    (stopWA probeAllDead stWAStopped).1.message = "Jupyter Lab 未运行" := by
  decide

/-- C5 (amended): the liveness check returns a boolean but is not a pure
query.  It leaves the state unchanged whenever it reports alive, and in the
backend service also when no managed pid is held; but when the pid-existence
probe reports the process dead it clears the handle state (backend:
`managed_pid`, `process`, `start_time`; web_app's `is_running` likewise
clears `process` on a non-`None` poll). -/
theorem c5_is_running_frame_amended :
    (∀ (p : Probe) (st : JSState), (isRunningJS p st).1 = true → (isRunningJS p st).2 = st) ∧
    (∀ (p : Probe) (st : JSState), st.managed_pid = none → (isRunningJS p st).2 = st) ∧
    (∀ (p : Probe) (st : JSState) (pid : Nat), st.managed_pid = some pid →
        p.pidAlive pid = false →
        (isRunningJS p st).2
          = { st with managed_pid := none, process := none, start_time := none }) ∧
    (∀ (p : Probe) (st : WAState), (isRunningWA p st).1 = true → (isRunningWA p st).2 = st) := by
  refine ⟨isRunningJS_of_true, ?_, ?_, isRunningWA_of_true⟩
  · intro p st hm
    cases hp : st.process with
    | some h =>
      by_cases hr : p.pollRunning h = true
      · simp [isRunningJS, hm, hp, hr]
      · simp [isRunningJS, hm, hp, hr]
    | none => simp [isRunningJS, hm, hp]
  · intro p st pid hm ha
    simp [isRunningJS, hm, ha]

/-- C5 witness: an alive probe leaves a concrete state untouched; a dead
probe on the same state clears the handles. -/
theorem c5_is_running_frame_amended_wit :
    ((isRunningJS probeAllAlive stAuto).1 = true ∧
      (isRunningJS probeAllAlive stAuto).2 = stAuto) ∧
    (stAuto.managed_pid = some 10 ∧ probeAllDead.pidAlive 10 = false ∧
      (isRunningJS probeAllDead stAuto).2
        = { stAuto with managed_pid := none, process := none, start_time := none }) :=
  ⟨⟨by decide, c5_is_running_frame_amended.1 probeAllAlive stAuto (by decide)⟩,
   ⟨rfl, rfl, c5_is_running_frame_amended.2.2.1 probeAllDead stAuto 10 rfl rfl⟩⟩

/-- C5 counterexample: `is_running` mutates handle ownership: on a state
holding pid 10 with the pid-probe reporting dead, the call returns `false`
and clears `managed_pid`, `process` and `start_time`. -/
theorem c5_is_running_pure_cex :
    stAuto.managed_pid = some 10 ∧ stAuto.start_time = some 0 ∧
    (isRunningJS probeAllDead stAuto).1 = false ∧
    (isRunningJS probeAllDead stAuto).2.managed_pid = none ∧
    (isRunningJS probeAllDead stAuto).2.start_time = none := by
  decide

/-- C7 (confirmed): for every start request whose merged port lies outside
[1024, 65535], the backend-service `start()` returns a configuration-error
failure (message prefixed "配置验证失败"), spawns no child process, and
leaves the supervisor state unchanged. -/
theorem c7_port_range_rejected :
    ∀ (e : StartEnv) (st : JSState) (o : Overrides),
      ((applyOverrides st.config o).port < 1024 ∨
        65535 < (applyOverrides st.config o).port) →
      (startJS e st o).1.success = false ∧
      strBeginWith "配置验证失败" (startJS e st o).1.message = true ∧
      (startJS e st o).2.1 = st ∧
      (startJS e st o).2.2 = false := by
  intro e st o h
  have hv := validateConfig_port_out e.fs (applyOverrides st.config o) h
  simp only [startJS, hv, Bool.false_eq_true, if_false]
  exact ⟨trivial, strBeginWith_config_error _, trivial, trivial⟩

/-- C7 witness: a request overriding the port to 80 is rejected without a
spawn and without touching the state. -/
theorem c7_port_range_rejected_wit :
    ((applyOverrides stJSStopped.config overridesPort80).port < 1024 ∨
      65535 < (applyOverrides stJSStopped.config overridesPort80).port) ∧
    (startJS envSpawnOk stJSStopped overridesPort80).1.success = false ∧
    (startJS envSpawnOk stJSStopped overridesPort80).2.1 = stJSStopped ∧
    (startJS envSpawnOk stJSStopped overridesPort80).2.2 = false :=
  ⟨Or.inl (by decide),
   (c7_port_range_rejected envSpawnOk stJSStopped overridesPort80 (Or.inl (by decide))).1,
   (c7_port_range_rejected envSpawnOk stJSStopped overridesPort80 (Or.inl (by decide))).2.2.1,
   (c7_port_range_rejected envSpawnOk stJSStopped overridesPort80 (Or.inl (by decide))).2.2.2⟩

/-- C8 (confirmed): when the requested `open_file` does not exist, is not a
regular file, or does not resolve under the project directory, it is
silently dropped: the web_app `start` behaves exactly as if no file had
been requested (same response, same spawn decision, same command vector)
and no `--ServerApp.default_url` argument is produced. -/
theorem c8_file_to_open_dropped :
    ∀ (e : WAEnv) (st : WAState) (pa : Option Int) (py da : Option String)
      (nb : Option Bool) (f : String),
      (e.fs.pathLives (e.expandUser f) = false ∨ e.fs.isFile (e.expandUser f) = false ∨
       e.relTo (e.resolvePath (e.expandUser f))
         (e.resolvePath (e.expandUser (orElseStr da st.project_dir))) = none) →
      (startWA e st pa py da nb (some f)).result = (startWA e st pa py da nb none).result ∧
      (startWA e st pa py da nb (some f)).spawned = (startWA e st pa py da nb none).spawned ∧
      (startWA e st pa py da nb (some f)).cmd = (startWA e st pa py da nb none).cmd ∧
      (startWA e st pa py da nb (some f)).defaultUrl = none := by
  intro e st pa py da nb f h
  unfold startWA
  by_cases hw : (isRunningWA e.p1 st).1 = true
  · simp [hw, waFail]
  · simp only [hw, Bool.false_eq_true, if_false]
    have hw2 : (isRunningWA e.p1 st).2.project_dir = st.project_dir := by
      rcases isRunningWA_state e.p1 st with hh | hh <;> rw [hh]
    rw [← hw2] at h
    exact startWAValidated_drop e
      (waAssignArgs e.configUseNotebook (isRunningWA e.p1 st).2 pa py da nb none) f h

/-- C8 witness: a concrete request naming a file that does not exist on the
filesystem launches identically to the same request without a file, with no
default-url argument. -/
theorem c8_file_to_open_dropped_wit :
    envC8.fs.pathLives (envC8.expandUser "/elsewhere/nb.ipynb") = false ∧
    (startWA envC8 stWAStopped none none none none (some "/elsewhere/nb.ipynb")).result
      = (startWA envC8 stWAStopped none none none none none).result ∧
    (startWA envC8 stWAStopped none none none none (some "/elsewhere/nb.ipynb")).defaultUrl
      = none :=
  ⟨by decide,
   (c8_file_to_open_dropped envC8 stWAStopped none none none none "/elsewhere/nb.ipynb"
     (Or.inl (by decide))).1,
   (c8_file_to_open_dropped envC8 stWAStopped none none none none "/elsewhere/nb.ipynb"
     (Or.inl (by decide))).2.2.2⟩

/-- C9 (amended): the web_app `save_config` rejects (success=false, nothing
persisted, stored config unchanged) whenever a supplied interpreter path is
not an existing regular file or a supplied project directory is not an
existing directory, and persists the merged config otherwise; but the
refactored `backend_api.save_config` persists any payload unconditionally
with a success response and no path validation at all. -/
theorem c9_save_config_amended :
    (∀ (fs : FS) (stored req : List (String × String)),
        waPathsOk fs req = false →
        (saveConfigWA fs stored req).result.success = false ∧
        (saveConfigWA fs stored req).persisted = false ∧
        (saveConfigWA fs stored req).stored = stored) ∧
    (∀ (fs : FS) (stored req : List (String × String)),
        waPathsOk fs req = true →
        (saveConfigWA fs stored req).result.success = true ∧
        (saveConfigWA fs stored req).persisted = true ∧
        (saveConfigWA fs stored req).stored = dictUpdate stored req) ∧
    (∀ (stored req : List (String × String)),
        (saveConfigBA stored req).result.success = true ∧
        (saveConfigBA stored req).persisted = true ∧
        (saveConfigBA stored req).stored = dictUpdate stored req) := by
  refine ⟨?_, ?_, fun stored req => ⟨rfl, rfl, rfl⟩⟩
  · intro fs stored req h
    unfold waPathsOk at h
    by_cases hpy : waPyOk fs req = true
    · have hdir : waDirOk fs req = false := by
        rcases Bool.and_eq_false_iff.mp h with h' | h'
        · exact absurd hpy (by simp [h'])
        · exact h'
      rw [(saveConfigWA_spec fs stored req).1 hpy]
      exact (saveConfigWADir_spec fs stored req).2 hdir
    · exact (saveConfigWA_spec fs stored req).2 (Bool.not_eq_true _ ▸ Bool.of_not_eq_true hpy)
  · intro fs stored req h
    unfold waPathsOk at h
    obtain ⟨hpy, hdir⟩ := Bool.and_eq_true_iff.mp h
    rw [(saveConfigWA_spec fs stored req).1 hpy,
        (saveConfigWADir_spec fs stored req).1 hdir]
    exact ⟨rfl, rfl, rfl⟩

/-- C9 witness: a request naming a nonexistent interpreter is rejected and
not persisted by the web_app route; the same request is accepted and
persisted by the refactored backend route. -/
theorem c9_save_config_amended_wit :
    (waPathsOk fsNone [("python_executable", "/nope")] = false ∧
      (saveConfigWA fsNone [] [("python_executable", "/nope")]).result.success = false ∧
      (saveConfigWA fsNone [] [("python_executable", "/nope")]).persisted = false) ∧
    ((saveConfigBA [] [("python_executable", "/nope")]).result.success = true ∧
      (saveConfigBA [] [("python_executable", "/nope")]).persisted = true) :=
  ⟨⟨by decide,
    (c9_save_config_amended.1 fsNone [] [("python_executable", "/nope")] (by decide)).1,
    (c9_save_config_amended.1 fsNone [] [("python_executable", "/nope")] (by decide)).2.1⟩,
   ⟨(c9_save_config_amended.2.2 [] [("python_executable", "/nope")]).1,
    (c9_save_config_amended.2.2 [] [("python_executable", "/nope")]).2.1⟩⟩

/-- C9 counterexample: `backend_api.save_config` does not reject a supplied
interpreter path that does not exist on disk: on a filesystem with no paths
it still answers success and persists the pair. -/
theorem c9_save_config_validation_cex :
    fsNone.pathLives "/nope" = false ∧
    (saveConfigBA [] [("python_executable", "/nope")]).result.success = true ∧
    (saveConfigBA [] [("python_executable", "/nope")]).persisted = true ∧
    (saveConfigBA [] [("python_executable", "/nope")]).stored
      = [("python_executable", "/nope")] := by
  decide

/-- C10 (amended): override keys that are not attribute names of
`JupyterConfig` are silently ignored — for any dunder-attribute set,
whenever every override key that passes the `hasattr` filter is a dataclass
field, `_merge_config` followed by `from_dict` succeeds and the merged dict
equals the stored config's dict updated only at the recognised field keys;
but a key naming a non-field attribute — a method such as "validate", or an
inherited double-underscore attribute such as "__class__" — passes
`hasattr` and makes `from_dict` raise a `TypeError`, so such request keys
do cause an error. -/
theorem c10_merge_overrides_amended :
    ∀ (du : String → Bool) (c : JupyterConfig) (kwargs : List (String × PyValue)),
      (∀ kv ∈ kwargs, hasattrJupyterConfig du kv.1 = true →
        configFieldNames.contains kv.1 = true) →
      mergeConfigDict du c kwargs
        = Except.ok (kwargs.foldl
            (fun d kv => if configFieldNames.contains kv.1 then dictSetPy d kv.1 kv.2 else d)
            (toDictConfig c)) := by
  intro du c kwargs hks
  obtain ⟨ha, hb⟩ := mergeFoldJS du kwargs (toDictConfig c) (toDictConfig_keys c) hks
  simp only [mergeConfigDict]
  rw [if_pos ha, hb]

/-- C10 witness: a request carrying the recognised key "port" and the
unrecognised key "bogus_key" merges without error, updating only "port" —
even under the over-approximating dunder oracle that admits every
double-underscore attribute name. -/
theorem c10_merge_overrides_amended_wit :
    (∀ kv ∈ kwargsMixed, hasattrJupyterConfig duAll kv.1 = true →
      configFieldNames.contains kv.1 = true) ∧
    mergeConfigDict duAll defaultJupyterConfig kwargsMixed
      = Except.ok (kwargsMixed.foldl
          (fun d kv => if configFieldNames.contains kv.1 then dictSetPy d kv.1 kv.2 else d)
          (toDictConfig defaultJupyterConfig)) :=
  ⟨by decide, c10_merge_overrides_amended duAll defaultJupyterConfig kwargsMixed (by decide)⟩

/-- C10 counterexample: neither "validate" nor "__class__" is a
`JupyterConfig` field, yet `_merge_config` ignores neither (the first is a
method, the second an inherited attribute of every instance, so `hasattr`
admits both) and `JupyterConfig.from_dict` then raises `TypeError`: unknown
request keys that cause an error. -/
theorem c10_unknown_keys_cex :
    configFieldNames.contains "validate" = false ∧
    hasattrJupyterConfig duAll "validate" = true ∧
    configFieldNames.contains "__class__" = false ∧
    hasattrJupyterConfig duAll "__class__" = true ∧
    mergeConfigDict duAll defaultJupyterConfig [("validate", PyValue.pBool true)]
      = Except.error "TypeError: unexpected keyword argument" ∧
    mergeConfigDict duAll defaultJupyterConfig [("__class__", PyValue.pStr "x")]
      = Except.error "TypeError: unexpected keyword argument" := by
  refine ⟨by decide, by decide, by decide, by decide, ?_, ?_⟩ <;> rfl
